import Mathlib

/-!
Shallow embedding of the dht22-rs driver (src/lib.rs) and verification of its
specification claims.

Modelling conventions:
* Durations are natural numbers counting nanoseconds, exactly as Rust's
  `Duration` stores them here (`Duration::new(0, 200_000)` is 200000 ns,
  `Duration::from_micros(70)` is 70000 ns); `Duration` comparison is the
  numeric order on those counts.
* The hardware pulse measurements performed by `measure_pulse` are inputs of
  the embedding (a `PulseTrace` records the duration each call returns, in the
  order the code performs the calls), matching the spec's injected/fake-timer
  view of the timing loop.
* `f32` arithmetic in the decoders is modelled exactly over `Rat`; the only
  operation performed is a multiplication by the literal `0.1`.
* Fallible operations return `Except DhtError`, with one constructor per
  `io::Error` the source constructs.
-/

/-! ### Constants (src/lib.rs lines 9-18) -/

def HUMIDITY_HIGH_BYTE_INDEX : Nat := 0

def HUMIDITY_LOW_BYTE_INDEX : Nat := 1

def TEMPERATURE_HIGH_BYTE_INDEX : Nat := 2

def TEMPERATURE_LOW_BYTE_INDEX : Nat := 3

def CHECKSUM_BYTE_INDEX : Nat := 4

def NUM_DATA_BYTES : Nat := 5

def NUM_DATA_BITS : Nat := NUM_DATA_BYTES * 8

/-- `PULSE_TIMEOUT = Duration::new(0, 200_000)`, i.e. 200000 ns = 200 us. -/
def PULSE_TIMEOUT : Nat := 200000

/-- Errors of the external GPIO backend (`rppal::gpio::Error`), abstract. -/
inductive GpioError
  | permissionDenied
  | pinBusy
  | backendFailure
deriving DecidableEq, Repr

/-- The `io::Error` values the driver constructs: a wrapped GPIO backend error
(`io::Error::new(Other, gpio_error)`), `io::ErrorKind::TimedOut`, and
`io::Error::new(InvalidData, "Checksum failed")`. -/
inductive DhtError
  | gpioError (e : GpioError)
  | timedOut
  | checksumFailed
deriving DecidableEq, Repr

/-- Abstract handle for the external GPIO controller (`rppal::gpio::Gpio`). -/
inductive GpioHandle
  | controller
deriving DecidableEq, Repr

/-- The measured durations returned by the successive `measure_pulse` calls of
one read transaction, in call order: the discarded initial High measurement
(line 97), the acknowledgement Low and High measurements (lines 101, 107), and
for each data-phase bit slot `i` the Low bit-start measurement `lows i`
(line 122) and the High bit-value measurement `highs i` (line 123). -/
structure PulseTrace where
  initHigh : Nat
  ackLow : Nat
  ackHigh : Nat
  lows : Nat → Nat
  highs : Nat → Nat

/-! ### Data phase (src/lib.rs lines 119-138) -/

/-- `(pulse_durations[i] > bit_transfer_start_pulse_durations[i]) as u8`
(line 134). -/
def bitValue (startLen pulseLen : Nat) : Nat :=
  if startLen < pulseLen then 1 else 0

/-- `bytes[i / 8] |= bit_value << (7 - (i % 8))` (line 137). -/
def mergeBit (bytes : List Nat) (i : Nat) (bit : Nat) : List Nat :=
  bytes.set (i / 8) (bytes.getD (i / 8) 0 ||| bit <<< (7 - i % 8))

/-- One iteration of the validate-and-merge loop (lines 129-138): fail with
`TimedOut` when `pulse_durations[i] > PULSE_TIMEOUT`, otherwise merge the
decoded bit into the byte buffer. -/
def dataStep (lows highs : Nat → Nat) (bytes : List Nat) (i : Nat) :
    Except DhtError (List Nat) :=
  if PULSE_TIMEOUT < highs i then .error .timedOut
  else .ok (mergeBit bytes i (bitValue (lows i) (highs i)))

/-- The validate-and-merge loop run for the first `n` bit slots, starting from
`let mut bytes = [0u8; NUM_DATA_BYTES]` (line 128). -/
def dataPhaseAux (lows highs : Nat → Nat) (n : Nat) : Except DhtError (List Nat) :=
  (List.range n).foldlM (dataStep lows highs) (List.replicate NUM_DATA_BYTES 0)

/-- The full validate-and-merge loop, `for i in 0..NUM_DATA_BITS` (line 129). -/
def dataPhase (lows highs : Nat → Nat) : Except DhtError (List Nat) :=
  dataPhaseAux lows highs NUM_DATA_BITS

/-! ### Checksum and transaction (src/lib.rs lines 61-149) -/

/-- The expected checksum (line 141): the four data bytes are widened to u16,
summed, and the sum truncated back to u8 by `as u8`. -/
def checksumOf (bytes : List Nat) : Nat :=
  ((bytes.getD HUMIDITY_HIGH_BYTE_INDEX 0 + bytes.getD HUMIDITY_LOW_BYTE_INDEX 0 +
      bytes.getD TEMPERATURE_HIGH_BYTE_INDEX 0 +
      bytes.getD TEMPERATURE_LOW_BYTE_INDEX 0) % 65536) % 256

/-- Data phase followed by the checksum test (lines 119-145). -/
def dataChecksumPhase (tr : PulseTrace) : Except DhtError (List Nat) :=
  match dataPhase tr.lows tr.highs with
  | .error e => .error e
  | .ok bytes =>
    if bytes.getD CHECKSUM_BYTE_INDEX 0 ≠ checksumOf bytes then .error .checksumFailed
    else .ok bytes

/-- The body of the read-thread closure (lines 74-146), from the first
acknowledgement measurement on: the initial High measurement's result is
discarded (line 97); the acknowledgement Low and High pulses must each lie in
the window `[from_micros(70), from_micros(90)]` (lines 101-110) or the
transaction fails with `TimedOut`; then the data phase and checksum run. -/
def dht22_transaction (tr : PulseTrace) : Except DhtError (List Nat) :=
  if tr.ackLow < 70000 ∨ 90000 < tr.ackLow then .error .timedOut
  else if tr.ackHigh < 70000 ∨ 90000 < tr.ackHigh then .error .timedOut
  else dataChecksumPhase tr

/-- The sensor handle: the GPIO controller plus the stored pin index
(lines 20-24). -/
structure DHT22 where
  gpioHandle : GpioHandle
  pin : Nat
deriving DecidableEq, Repr

/-- `DHT22::new` (lines 27-36): forward a `Gpio::new()` failure as an
`Other`-kind error, otherwise store the controller and the pin index; the pin
index itself is never inspected. -/
def DHT22.new (gpioInit : Except GpioError GpioHandle) (gpio_pin : Nat) :
    Except DhtError DHT22 :=
  match gpioInit with
  | .error gpio_error => .error (.gpioError gpio_error)
  | .ok g => .ok ⟨g, gpio_pin⟩

/-- `DHT22::dht22_read` (lines 61-149): `self.gpio.get(self.pin)` may fail
(acquisition), otherwise the spawned closure runs the transaction on the given
pulse trace and its result is joined and returned. -/
def dht22_read (acquire : Except GpioError Unit) (tr : PulseTrace) :
    Except DhtError (List Nat) :=
  match acquire with
  | .error gpio_error => .error (.gpioError gpio_error)
  | .ok _ => dht22_transaction tr

/-! ### Decoders (src/lib.rs lines 38-59), f32 modelled exactly over Rat -/

/-- Temperature decoding applied to a raw frame (lines 41-49). -/
def dht22_read_temperature_of (read_bytes : List Nat) : Rat :=
  let temperature : Nat :=
    ((read_bytes.getD TEMPERATURE_HIGH_BYTE_INDEX 0 &&& 0x7F) <<< 8) |||
      read_bytes.getD TEMPERATURE_LOW_BYTE_INDEX 0
  let temperature : Rat := (temperature : Rat) * 0.1
  if read_bytes.getD TEMPERATURE_HIGH_BYTE_INDEX 0 &&& 0x80 ≠ 0 then -temperature
  else temperature

/-- Humidity decoding applied to a raw frame (lines 55-58). -/
def dht22_read_humidity_of (read_bytes : List Nat) : Rat :=
  let humidity : Nat :=
    (read_bytes.getD HUMIDITY_HIGH_BYTE_INDEX 0 <<< 8) |||
      read_bytes.getD HUMIDITY_LOW_BYTE_INDEX 0
  (humidity : Rat) * 0.1

/-- `DHT22::dht22_read_temperature` (lines 38-50): `self.dht22_read()?` then
decode. -/
def dht22_read_temperature (acquire : Except GpioError Unit) (tr : PulseTrace) :
    Except DhtError Rat :=
  match dht22_read acquire tr with
  | .error e => .error e
  | .ok read_bytes => .ok (dht22_read_temperature_of read_bytes)

/-- `DHT22::dht22_read_humidity` (lines 52-59): `self.dht22_read()?` then
decode. -/
def dht22_read_humidity (acquire : Except GpioError Unit) (tr : PulseTrace) :
    Except DhtError Rat :=
  match dht22_read acquire tr with
  | .error e => .error e
  | .ok read_bytes => .ok (dht22_read_humidity_of read_bytes)

/-! ### Helper lemmas about the data phase -/

theorem dataPhaseAux_succ (lows highs : Nat → Nat) (n : Nat) :
    dataPhaseAux lows highs (n + 1) =
      dataPhaseAux lows highs n >>= fun bytes => dataStep lows highs bytes n := by
  unfold dataPhaseAux
  rw [List.range_succ, List.foldlM_append]
  simp

theorem getD_set_self (l : List Nat) (i v : Nat) (h : i < l.length) :
    (l.set i v).getD i 0 = v := by
  simp [List.getD_eq_getElem?_getD, List.getElem?_set_self h]

theorem getD_set_ne (l : List Nat) (i j v : Nat) (h : i ≠ j) :
    (l.set i v).getD j 0 = l.getD j 0 := by
  simp [List.getD_eq_getElem?_getD, List.getElem?_set_ne h]

theorem bitValue_le_one (a b : Nat) : bitValue a b ≤ 1 := by
  unfold bitValue
  split <;> omega

theorem bitValue_testBit_pos (a b p : Nat) (hp : 0 < p) :
    (bitValue a b).testBit p = false := by
  refine Nat.testBit_lt_two_pow ?_
  have h1 : bitValue a b ≤ 1 := bitValue_le_one a b
  have h2 : (2 : Nat) ^ 1 ≤ 2 ^ p := Nat.pow_le_pow_right (by omega) hp
  omega

theorem dataPhaseAux_ok_spec (lows highs : Nat → Nat) :
    ∀ n, n ≤ NUM_DATA_BITS → (∀ i, i < n → highs i ≤ PULSE_TIMEOUT) →
      ∃ bytes : List Nat,
        dataPhaseAux lows highs n = .ok bytes ∧
        bytes.length = NUM_DATA_BYTES ∧
        ∀ i, i < NUM_DATA_BITS →
          (bytes.getD (i / 8) 0).testBit (7 - i % 8) =
            (decide (i < n) && decide (lows i < highs i)) := by
  intro n
  induction n with
  | zero =>
    intro _ _
    refine ⟨List.replicate NUM_DATA_BYTES 0, rfl, by simp, ?_⟩
    intro i _
    have hzero : (List.replicate NUM_DATA_BYTES (0 : Nat)).getD (i / 8) 0 = 0 := by
      rw [List.getD_eq_getElem?_getD, List.getElem?_replicate]
      split <;> rfl
    simp [hzero]
  | succ n ih =>
    intro hn ht
    obtain ⟨bytes, hok, hlen, hbit⟩ := ih (by omega) (fun i hi => ht i (by omega))
    have hn40 : n < 40 := by
      have h40 : NUM_DATA_BITS = 40 := rfl
      omega
    have hn8 : n / 8 < bytes.length := by
      rw [hlen, show NUM_DATA_BYTES = 5 from rfl]
      omega
    refine ⟨mergeBit bytes n (bitValue (lows n) (highs n)), ?_, ?_, ?_⟩
    · rw [dataPhaseAux_succ, hok]
      show dataStep lows highs bytes n = _
      unfold dataStep
      rw [if_neg (by have := ht n (by omega); omega)]
    · unfold mergeBit
      rw [List.length_set]
      exact hlen
    · intro i hi
      unfold mergeBit
      by_cases hieq : i = n
      · subst hieq
        have hold : (bytes.getD (i / 8) 0).testBit (7 - i % 8) = false := by
          rw [hbit i hi]
          simp
        rw [getD_set_self bytes (i / 8) _ hn8, Nat.testBit_lor, Nat.testBit_shiftLeft, hold]
        by_cases hb : lows i < highs i <;>
          simp [bitValue, hb]
      · have hdec : decide (i < n + 1) = decide (i < n) := by
          rw [decide_eq_decide]
          omega
        by_cases hbyte : i / 8 = n / 8
        · have hkne : 7 - i % 8 ≠ 7 - n % 8 := by omega
          rw [hbyte, getD_set_self bytes (n / 8) _ hn8, Nat.testBit_lor, Nat.testBit_shiftLeft]
          have hshift : (decide (7 - i % 8 ≥ 7 - n % 8) &&
              (bitValue (lows n) (highs n)).testBit (7 - i % 8 - (7 - n % 8))) = false := by
            rcases Nat.lt_or_ge (7 - i % 8) (7 - n % 8) with hlt | hge
            · simp [Nat.not_le.mpr hlt]
            · have hpos : 0 < 7 - i % 8 - (7 - n % 8) := by omega
              simp [bitValue_testBit_pos (lows n) (highs n) _ hpos]
          rw [hshift, Bool.or_false, ← hbyte, hbit i hi, hdec]
        · rw [getD_set_ne bytes (n / 8) (i / 8) _ (fun hEq => hbyte hEq.symm),
            hbit i hi, hdec]

theorem dataPhaseAux_timeout (lows highs : Nat → Nat) (j : Nat)
    (hj : PULSE_TIMEOUT < highs j) (hmin : ∀ i, i < j → highs i ≤ PULSE_TIMEOUT) :
    ∀ n, j < n → n ≤ NUM_DATA_BITS → dataPhaseAux lows highs n = .error .timedOut := by
  intro n
  induction n with
  | zero => intro h _; omega
  | succ n ih =>
    intro hjn hn
    rw [dataPhaseAux_succ]
    by_cases hlt : j < n
    · rw [ih hlt (by omega)]
      rfl
    · have hje : j = n := by omega
      subst hje
      obtain ⟨bytes, hok, _, _⟩ := dataPhaseAux_ok_spec lows highs j (by omega) hmin
      rw [hok]
      show dataStep lows highs bytes j = _
      unfold dataStep
      rw [if_pos hj]

theorem dataPhaseAux_ok_bound (lows highs : Nat → Nat) :
    ∀ n (bytes : List Nat), dataPhaseAux lows highs n = .ok bytes →
      ∀ i, i < n → highs i ≤ PULSE_TIMEOUT := by
  intro n
  induction n with
  | zero => intro bytes _ i hi; omega
  | succ n ih =>
    intro bytes h i hi
    rw [dataPhaseAux_succ] at h
    cases hprev : dataPhaseAux lows highs n with
    | error e =>
      rw [hprev] at h
      exact Except.noConfusion (show (Except.error e : Except DhtError (List Nat)) = .ok bytes from h)
    | ok b =>
      rw [hprev] at h
      by_cases hin : i < n
      · exact ih b hprev i hin
      · have hieq : i = n := by omega
        subst hieq
        have hstep : dataStep lows highs b i = .ok bytes := h
        unfold dataStep at hstep
        by_cases hto : PULSE_TIMEOUT < highs i
        · rw [if_pos hto] at hstep
          exact Except.noConfusion hstep
        · omega

theorem dht22_transaction_eq (tr : PulseTrace)
    (h1 : 70000 ≤ tr.ackLow) (h2 : tr.ackLow ≤ 90000)
    (h3 : 70000 ≤ tr.ackHigh) (h4 : tr.ackHigh ≤ 90000) :
    dht22_transaction tr = dataChecksumPhase tr := by
  unfold dht22_transaction
  rw [if_neg (by omega), if_neg (by omega)]

theorem dht22_transaction_ok_elim (tr : PulseTrace) (bytes : List Nat)
    (h : dht22_transaction tr = .ok bytes) :
    dataPhase tr.lows tr.highs = .ok bytes ∧
    bytes.getD CHECKSUM_BYTE_INDEX 0 = checksumOf bytes := by
  unfold dht22_transaction at h
  by_cases h1 : tr.ackLow < 70000 ∨ 90000 < tr.ackLow
  · rw [if_pos h1] at h
    exact Except.noConfusion h
  rw [if_neg h1] at h
  by_cases h2 : tr.ackHigh < 70000 ∨ 90000 < tr.ackHigh
  · rw [if_pos h2] at h
    exact Except.noConfusion h
  rw [if_neg h2] at h
  unfold dataChecksumPhase at h
  cases hdp : dataPhase tr.lows tr.highs with
  | error e =>
    rw [hdp] at h
    exact Except.noConfusion (show (Except.error e : Except DhtError (List Nat)) = .ok bytes from h)
  | ok b =>
    rw [hdp] at h
    have h' : (if b.getD CHECKSUM_BYTE_INDEX 0 ≠ checksumOf b then Except.error DhtError.checksumFailed
        else Except.ok b) = Except.ok bytes := h
    by_cases hcs : b.getD CHECKSUM_BYTE_INDEX 0 ≠ checksumOf b
    · rw [if_pos hcs] at h'
      exact Except.noConfusion h'
    · rw [if_neg hcs] at h'
      cases h'
      exact ⟨rfl, not_not.mp hcs⟩

/-! ### Concrete pulse traces used by witnesses and counterexamples -/

/-- All-zero-bits pulse trace: 80 us acknowledgement pulses, every bit-start
Low pulse 50 us, every bit-value High pulse 30 us; all 40 decoded bits are 0
and the resulting frame is `[0, 0, 0, 0, 0]` with a valid checksum. -/
def zeroBitsTrace : PulseTrace :=
  ⟨30000, 80000, 80000, fun _ => 50000, fun _ => 30000⟩

/-- Pulse trace whose bit slot 0 has a Low bit-start measurement of 250 us
(beyond the 200 us timeout) and a High bit-value measurement of exactly
`PULSE_TIMEOUT`; every slot decodes to 0. -/
def atTimeoutTrace : PulseTrace :=
  ⟨30000, 80000, 80000, fun i => if i = 0 then 250000 else 50000,
    fun i => if i = 0 then PULSE_TIMEOUT else 30000⟩

/-- Pulse trace whose bit slot 5 has a High bit-value measurement one
nanosecond above `PULSE_TIMEOUT`. -/
def overTimeoutTrace : PulseTrace :=
  ⟨30000, 80000, 80000, fun _ => 50000, fun i => if i = 5 then 200001 else 30000⟩

/-- Acknowledgement pulses exactly at the window boundaries 70 us and 90 us. -/
def ackBoundaryPassTrace : PulseTrace :=
  ⟨30000, 70000, 90000, fun _ => 50000, fun _ => 30000⟩

/-- Acknowledgement Low pulse of 69 us, one microsecond below the window. -/
def ackLow69Trace : PulseTrace :=
  ⟨30000, 69000, 80000, fun _ => 50000, fun _ => 30000⟩

/-- Acknowledgement High pulse of 91 us, one microsecond above the window. -/
def ackHigh91Trace : PulseTrace :=
  ⟨30000, 80000, 91000, fun _ => 50000, fun _ => 30000⟩

/-! ### Claim C1 -/

/-- C1: when the read transaction succeeds with a Raw Frame, data-phase bit
slot `i` decodes to 1 exactly when its High bit-value duration strictly
exceeds its Low bit-start duration (equal durations decode to 0), and the
decoded bit sits at position `7 - i % 8` of byte `i / 8` of the frame. -/
theorem c1_bit_decoding_and_packing (tr : PulseTrace) (bytes : List Nat)
    (h : dht22_transaction tr = .ok bytes) :
    ∀ i, i < NUM_DATA_BITS →
      (bytes.getD (i / 8) 0).testBit (7 - i % 8) = decide (tr.lows i < tr.highs i) := by
  obtain ⟨hdp, _⟩ := dht22_transaction_ok_elim tr bytes h
  have hbound := dataPhaseAux_ok_bound tr.lows tr.highs NUM_DATA_BITS bytes hdp
  obtain ⟨bytes2, hok2, _, hbit⟩ :=
    dataPhaseAux_ok_spec tr.lows tr.highs NUM_DATA_BITS le_rfl hbound
  have hbeq : bytes2 = bytes := Except.ok.inj (hok2.symm.trans hdp)
  subst hbeq
  intro i hi
  rw [hbit i hi]
  simp [hi]

/-- C1 witness: the all-zero-bits trace succeeds with frame `[0,0,0,0,0]` and
bit slot 0 (High 30 us, not above Low 50 us) decodes to 0. -/
theorem c1_bit_decoding_and_packing_witness :
    (([0, 0, 0, 0, 0] : List Nat).getD (0 / 8) 0).testBit (7 - 0 % 8) =
      decide (zeroBitsTrace.lows 0 < zeroBitsTrace.highs 0) :=
  c1_bit_decoding_and_packing zeroBitsTrace [0, 0, 0, 0, 0] rfl 0 (by decide)

/-! ### Claim C2 -/

/-- C2: with in-window acknowledgement pulses, a transaction whose data phase
assembled the frame `bytes` returns that frame iff the fifth byte equals the
sum of the four data bytes reduced mod 256 (the u16-width intermediate sum
truncated to u8), and on mismatch it returns the data-corruption error. -/
theorem c2_checksum_acceptance (tr : PulseTrace) (bytes : List Nat)
    (hackLow : 70000 ≤ tr.ackLow ∧ tr.ackLow ≤ 90000)
    (hackHigh : 70000 ≤ tr.ackHigh ∧ tr.ackHigh ≤ 90000)
    (hdata : dataPhase tr.lows tr.highs = .ok bytes) :
    (dht22_transaction tr = .ok bytes ↔
      bytes.getD CHECKSUM_BYTE_INDEX 0 =
        (bytes.getD HUMIDITY_HIGH_BYTE_INDEX 0 + bytes.getD HUMIDITY_LOW_BYTE_INDEX 0 +
          bytes.getD TEMPERATURE_HIGH_BYTE_INDEX 0 +
          bytes.getD TEMPERATURE_LOW_BYTE_INDEX 0) % 256) ∧
    (bytes.getD CHECKSUM_BYTE_INDEX 0 ≠
        (bytes.getD HUMIDITY_HIGH_BYTE_INDEX 0 + bytes.getD HUMIDITY_LOW_BYTE_INDEX 0 +
          bytes.getD TEMPERATURE_HIGH_BYTE_INDEX 0 +
          bytes.getD TEMPERATURE_LOW_BYTE_INDEX 0) % 256 →
      dht22_transaction tr = .error .checksumFailed) := by
  have hmod : checksumOf bytes =
      (bytes.getD HUMIDITY_HIGH_BYTE_INDEX 0 + bytes.getD HUMIDITY_LOW_BYTE_INDEX 0 +
        bytes.getD TEMPERATURE_HIGH_BYTE_INDEX 0 +
        bytes.getD TEMPERATURE_LOW_BYTE_INDEX 0) % 256 := by
    unfold checksumOf
    rw [Nat.mod_mod_of_dvd _ (by norm_num)]
  have htr : dht22_transaction tr = dataChecksumPhase tr :=
    dht22_transaction_eq tr hackLow.1 hackLow.2 hackHigh.1 hackHigh.2
  have hdc : dataChecksumPhase tr =
      (if bytes.getD CHECKSUM_BYTE_INDEX 0 ≠ checksumOf bytes then
        Except.error DhtError.checksumFailed
      else Except.ok bytes) := by
    unfold dataChecksumPhase
    rw [hdata]
  constructor
  · rw [htr, hdc, ← hmod]
    by_cases hcs : bytes.getD CHECKSUM_BYTE_INDEX 0 = checksumOf bytes
    · rw [if_neg (not_not.mpr hcs)]
      exact ⟨fun _ => hcs, fun _ => rfl⟩
    · rw [if_pos hcs]
      exact ⟨fun hEq => Except.noConfusion hEq, fun hEq => absurd hEq hcs⟩
  · intro hne
    rw [htr, hdc, if_pos (show bytes.getD CHECKSUM_BYTE_INDEX 0 ≠ checksumOf bytes by
      rw [hmod]; exact hne)]

/-- C2 witness: instantiated on the all-zero-bits trace and its frame
`[0,0,0,0,0]`, whose checksum byte 0 matches the sum 0 mod 256. -/
theorem c2_checksum_acceptance_witness :
    (dht22_transaction zeroBitsTrace = .ok [0, 0, 0, 0, 0] ↔
      ([0, 0, 0, 0, 0] : List Nat).getD CHECKSUM_BYTE_INDEX 0 =
        (([0, 0, 0, 0, 0] : List Nat).getD HUMIDITY_HIGH_BYTE_INDEX 0 +
          ([0, 0, 0, 0, 0] : List Nat).getD HUMIDITY_LOW_BYTE_INDEX 0 +
          ([0, 0, 0, 0, 0] : List Nat).getD TEMPERATURE_HIGH_BYTE_INDEX 0 +
          ([0, 0, 0, 0, 0] : List Nat).getD TEMPERATURE_LOW_BYTE_INDEX 0) % 256) ∧
    (([0, 0, 0, 0, 0] : List Nat).getD CHECKSUM_BYTE_INDEX 0 ≠
        (([0, 0, 0, 0, 0] : List Nat).getD HUMIDITY_HIGH_BYTE_INDEX 0 +
          ([0, 0, 0, 0, 0] : List Nat).getD HUMIDITY_LOW_BYTE_INDEX 0 +
          ([0, 0, 0, 0, 0] : List Nat).getD TEMPERATURE_HIGH_BYTE_INDEX 0 +
          ([0, 0, 0, 0, 0] : List Nat).getD TEMPERATURE_LOW_BYTE_INDEX 0) % 256 →
      dht22_transaction zeroBitsTrace = .error .checksumFailed) :=
  c2_checksum_acceptance zeroBitsTrace [0, 0, 0, 0, 0] (by decide) (by decide) rfl

/-! ### Claim C3 (corrected) -/

/-- C3 counterexample: in `atTimeoutTrace` the bit-slot-0 Low measurement is
250 us (at/beyond the timeout) and the High measurement is exactly
`PULSE_TIMEOUT`, yet the transaction succeeds instead of failing with a
timeout-class error. -/
theorem c3_counterexample :
    PULSE_TIMEOUT ≤ atTimeoutTrace.lows 0 ∧
    PULSE_TIMEOUT ≤ atTimeoutTrace.highs 0 ∧
    dht22_transaction atTimeoutTrace = .ok [0, 0, 0, 0, 0] :=
  ⟨by decide, by decide, rfl⟩

/-- C3 amended: only the High bit-value measurements are validated against the
pulse timeout, and only a duration strictly greater than `PULSE_TIMEOUT` fails
the transaction with the timeout-class error; when every High measurement is
at most the timeout — including exactly the timeout — the data phase completes
regardless of the Low bit-start durations. -/
theorem c3_amended_strict_high_timeout (tr : PulseTrace)
    (hackLow : 70000 ≤ tr.ackLow ∧ tr.ackLow ≤ 90000)
    (hackHigh : 70000 ≤ tr.ackHigh ∧ tr.ackHigh ≤ 90000) :
    ((∃ j, j < NUM_DATA_BITS ∧ PULSE_TIMEOUT < tr.highs j) →
      dht22_transaction tr = .error .timedOut) ∧
    ((∀ j, j < NUM_DATA_BITS → tr.highs j ≤ PULSE_TIMEOUT) →
      ∃ bytes, dataPhase tr.lows tr.highs = .ok bytes) := by
  constructor
  · intro hex
    rw [dht22_transaction_eq tr hackLow.1 hackLow.2 hackHigh.1 hackHigh.2]
    have hex2 : ∃ j, PULSE_TIMEOUT < tr.highs j := by
      obtain ⟨j, _, hj⟩ := hex
      exact ⟨j, hj⟩
    have hPmin := Nat.find_spec hex2
    have hmin : ∀ i, i < Nat.find hex2 → tr.highs i ≤ PULSE_TIMEOUT := by
      intro i hi
      have := Nat.find_min hex2 hi
      omega
    have hfind_lt : Nat.find hex2 < NUM_DATA_BITS := by
      obtain ⟨j, hj40, hj⟩ := hex
      exact lt_of_le_of_lt (Nat.find_min' hex2 hj) hj40
    have hdp : dataPhase tr.lows tr.highs = .error .timedOut :=
      dataPhaseAux_timeout tr.lows tr.highs (Nat.find hex2) hPmin hmin NUM_DATA_BITS
        hfind_lt le_rfl
    unfold dataChecksumPhase
    rw [hdp]
  · intro hall
    obtain ⟨bytes, hok, _, _⟩ :=
      dataPhaseAux_ok_spec tr.lows tr.highs NUM_DATA_BITS le_rfl hall
    exact ⟨bytes, hok⟩

/-- C3 amended witness: a High bit-value pulse of 200001 ns (timeout plus one
nanosecond) in slot 5 makes the transaction fail with the timeout error. -/
theorem c3_amended_strict_high_timeout_witness :
    dht22_transaction overTimeoutTrace = .error .timedOut :=
  (c3_amended_strict_high_timeout overTimeoutTrace (by decide) (by decide)).1
    ⟨5, by decide, by decide⟩

/-! ### Claim C4 -/

/-- C4: the acknowledgement Low pulse and the second acknowledgement High
pulse pass exactly when they lie in the inclusive 70000-90000 ns window: an
out-of-window measurement fails the transaction with the timeout-class error,
while in-window measurements hand control to the data/checksum phase. -/
theorem c4_ack_window (tr : PulseTrace) :
    ((70000 ≤ tr.ackLow ∧ tr.ackLow ≤ 90000 ∧ 70000 ≤ tr.ackHigh ∧ tr.ackHigh ≤ 90000) →
      dht22_transaction tr = dataChecksumPhase tr) ∧
    ((tr.ackLow < 70000 ∨ 90000 < tr.ackLow) → dht22_transaction tr = .error .timedOut) ∧
    (70000 ≤ tr.ackLow → tr.ackLow ≤ 90000 →
      (tr.ackHigh < 70000 ∨ 90000 < tr.ackHigh) →
      dht22_transaction tr = .error .timedOut) := by
  refine ⟨fun h => dht22_transaction_eq tr h.1 h.2.1 h.2.2.1 h.2.2.2,
    fun h => ?_, fun h1 h2 h3 => ?_⟩
  · unfold dht22_transaction
    rw [if_pos h]
  · unfold dht22_transaction
    rw [if_neg (by omega), if_pos h3]

/-- C4 witness: boundary values 70 us and 90 us pass, while 69 us and 91 us
fail with the timeout-class error. -/
theorem c4_ack_window_witness :
    dht22_transaction ackBoundaryPassTrace = dataChecksumPhase ackBoundaryPassTrace ∧
    dht22_transaction ackLow69Trace = .error .timedOut ∧
    dht22_transaction ackHigh91Trace = .error .timedOut :=
  ⟨(c4_ack_window ackBoundaryPassTrace).1 (by decide),
    (c4_ack_window ackLow69Trace).2.1 (by decide),
    (c4_ack_window ackHigh91Trace).2.2 (by decide) (by decide) (by decide)⟩

/-! ### Bit-manipulation bridge lemmas for the decoders -/

theorem shiftLeft8_lor_eq (a b : Nat) (hb : b < 256) : (a <<< 8) ||| b = a * 256 + b := by
  have hb8 : b < 2 ^ 8 := hb
  have h := Nat.mul_add_lt_is_or hb8 a
  rw [Nat.shiftLeft_eq, mul_comm a (2 ^ 8), ← h, mul_comm ((2 : Nat) ^ 8) a]

theorem land127_eq_mod (x : Nat) : x &&& 127 = x % 128 := by
  have h := Nat.and_pow_two_sub_one_eq_mod x 7
  norm_num at h
  exact h

theorem land128_ne_zero_iff (x : Nat) : x &&& 128 ≠ 0 ↔ x.testBit 7 = true := by
  have h := Nat.and_two_pow x 7
  norm_num at h
  rw [h]
  cases hx : x.testBit 7 <;> simp

/-! ### Claim C5 -/

/-- C5: the temperature decoder returns the 15-bit magnitude
`((temperature-high mod 128) * 256) + temperature-low` scaled by 0.1, negated
exactly when bit 7 of temperature-high is set: sign-magnitude, not
two's-complement. -/
theorem c5_temperature_sign_magnitude (read_bytes : List Nat)
    (h3 : read_bytes.getD TEMPERATURE_LOW_BYTE_INDEX 0 < 256) :
    dht22_read_temperature_of read_bytes =
      (if (read_bytes.getD TEMPERATURE_HIGH_BYTE_INDEX 0).testBit 7 then -1 else 1) *
        (((read_bytes.getD TEMPERATURE_HIGH_BYTE_INDEX 0 % 128) * 256 +
          read_bytes.getD TEMPERATURE_LOW_BYTE_INDEX 0 : Nat) : Rat) * 0.1 := by
  simp only [dht22_read_temperature_of]
  rw [land127_eq_mod, shiftLeft8_lor_eq _ _ h3]
  by_cases hsign : (read_bytes.getD TEMPERATURE_HIGH_BYTE_INDEX 0).testBit 7 = true
  · rw [if_pos ((land128_ne_zero_iff _).mpr hsign), if_pos hsign]
    ring
  · rw [if_neg (fun hc => hsign ((land128_ne_zero_iff _).mp hc)), if_neg hsign]
    ring

/-- C5 witness: temperature-high 0x81 (bit 7 set, magnitude bits 1) and
temperature-low 0x05 decode to -26.1 degrees. -/
theorem c5_temperature_sign_magnitude_witness :
    dht22_read_temperature_of [0, 0, 129, 5, 0] =
      (if (([0, 0, 129, 5, 0] : List Nat).getD TEMPERATURE_HIGH_BYTE_INDEX 0).testBit 7
        then -1 else 1) *
        (((([0, 0, 129, 5, 0] : List Nat).getD TEMPERATURE_HIGH_BYTE_INDEX 0 % 128) * 256 +
          ([0, 0, 129, 5, 0] : List Nat).getD TEMPERATURE_LOW_BYTE_INDEX 0 : Nat) : Rat) * 0.1 ∧
    dht22_read_temperature_of [0, 0, 129, 5, 0] = -26.1 :=
  ⟨c5_temperature_sign_magnitude [0, 0, 129, 5, 0] (by decide), by
    have h : dht22_read_temperature_of [0, 0, 129, 5, 0] = -(((261 : Nat) : Rat) * 0.1) := rfl
    rw [h]
    norm_num⟩

/-! ### Claim C6 -/

/-- C6: the humidity decoder returns the 16-bit unsigned magnitude
`humidity-high * 256 + humidity-low` scaled by 0.1, with no sign handling, so
the result is always non-negative. -/
theorem c6_humidity_unsigned (read_bytes : List Nat)
    (h1 : read_bytes.getD HUMIDITY_LOW_BYTE_INDEX 0 < 256) :
    dht22_read_humidity_of read_bytes =
      ((read_bytes.getD HUMIDITY_HIGH_BYTE_INDEX 0 * 256 +
        read_bytes.getD HUMIDITY_LOW_BYTE_INDEX 0 : Nat) : Rat) * 0.1 ∧
    0 ≤ dht22_read_humidity_of read_bytes := by
  have heq : dht22_read_humidity_of read_bytes =
      ((read_bytes.getD HUMIDITY_HIGH_BYTE_INDEX 0 * 256 +
        read_bytes.getD HUMIDITY_LOW_BYTE_INDEX 0 : Nat) : Rat) * 0.1 := by
    simp only [dht22_read_humidity_of]
    rw [shiftLeft8_lor_eq _ _ h1]
  refine ⟨heq, ?_⟩
  rw [heq]
  exact mul_nonneg (Nat.cast_nonneg _) (by norm_num)

/-- C6 witness: humidity bytes 0x02 and 0x8C decode to `652 * 0.1` percent,
a non-negative value. -/
theorem c6_humidity_unsigned_witness :
    dht22_read_humidity_of [2, 140, 1, 5, 148] =
      ((([2, 140, 1, 5, 148] : List Nat).getD HUMIDITY_HIGH_BYTE_INDEX 0 * 256 +
        ([2, 140, 1, 5, 148] : List Nat).getD HUMIDITY_LOW_BYTE_INDEX 0 : Nat) : Rat) * 0.1 ∧
    0 ≤ dht22_read_humidity_of [2, 140, 1, 5, 148] :=
  c6_humidity_unsigned [2, 140, 1, 5, 148] (by decide)

/-! ### Claim C7 (corrected) -/

/-- Encode a 5-byte frame as a pulse trace: 80 us acknowledgement pulses, 50 us
Low bit-start pulses, and for bit slot `i` a 70 us High pulse when bit
`7 - i % 8` of frame byte `i / 8` is set, 30 us otherwise; the transaction
then reassembles exactly this frame. -/
def frameTrace (frame : List Nat) : PulseTrace :=
  ⟨30000, 80000, 80000, fun _ => 50000,
    fun i => if (frame.getD (i / 8) 0).testBit (7 - i % 8) then 70000 else 30000⟩

/-- C7 counterexample: the claim's frame `[0x02, 0x8C, 0x01, 0x05, 0x92]` has
data-byte sum `0x02 + 0x8C + 0x01 + 0x05 = 0x94 ≠ 0x92`, so the checksum check
rejects it: the transaction reassembling this frame returns the
data-corruption error, and no humidity or temperature value is produced. -/
theorem c7_counterexample :
    checksumOf [0x02, 0x8C, 0x01, 0x05, 0x92] = 0x94 ∧
    dht22_transaction (frameTrace [0x02, 0x8C, 0x01, 0x05, 0x92]) = .error .checksumFailed ∧
    dht22_read_temperature (.ok ()) (frameTrace [0x02, 0x8C, 0x01, 0x05, 0x92]) =
      .error .checksumFailed ∧
    dht22_read_humidity (.ok ()) (frameTrace [0x02, 0x8C, 0x01, 0x05, 0x92]) =
      .error .checksumFailed :=
  ⟨rfl, rfl, rfl, rfl⟩

/-- C7 amended: with the checksum byte corrected to 0x94, the frame
`[0x02, 0x8C, 0x01, 0x05, 0x94]` passes the checksum check, the read returns
it with no error, humidity decodes to 65.2 and temperature to 26.1. -/
theorem c7_scenario_frame_amended :
    dht22_read (.ok ()) (frameTrace [0x02, 0x8C, 0x01, 0x05, 0x94]) =
      .ok [0x02, 0x8C, 0x01, 0x05, 0x94] ∧
    dht22_read_humidity (.ok ()) (frameTrace [0x02, 0x8C, 0x01, 0x05, 0x94]) = .ok 65.2 ∧
    dht22_read_temperature (.ok ()) (frameTrace [0x02, 0x8C, 0x01, 0x05, 0x94]) = .ok 26.1 := by
  refine ⟨rfl, ?_, ?_⟩
  · have h : dht22_read_humidity (.ok ()) (frameTrace [0x02, 0x8C, 0x01, 0x05, 0x94]) =
        .ok (((652 : Nat) : Rat) * 0.1) := rfl
    rw [h]
    norm_num
  · have h : dht22_read_temperature (.ok ()) (frameTrace [0x02, 0x8C, 0x01, 0x05, 0x94]) =
        .ok (((261 : Nat) : Rat) * 0.1) := rfl
    rw [h]
    norm_num

/-! ### Claim C8 -/

/-- C8: whenever the read transaction fails, both accessor operations return
that same error unchanged, and no decoded reading of any kind is produced. -/
theorem c8_error_propagation (acquire : Except GpioError Unit) (tr : PulseTrace)
    (e : DhtError) (h : dht22_read acquire tr = .error e) :
    dht22_read_temperature acquire tr = .error e ∧
    dht22_read_humidity acquire tr = .error e := by
  unfold dht22_read_temperature dht22_read_humidity
  rw [h]
  exact ⟨rfl, rfl⟩

/-- C8 witness: the scenario frame with checksum byte changed to 0x93 fails the
checksum check and both decoders surface that same data-corruption error. -/
theorem c8_error_propagation_witness :
    dht22_read_temperature (.ok ()) (frameTrace [0x02, 0x8C, 0x01, 0x05, 0x93]) =
      .error .checksumFailed ∧
    dht22_read_humidity (.ok ()) (frameTrace [0x02, 0x8C, 0x01, 0x05, 0x93]) =
      .error .checksumFailed :=
  c8_error_propagation (.ok ()) (frameTrace [0x02, 0x8C, 0x01, 0x05, 0x93])
    .checksumFailed rfl

/-! ### Claim C9 -/

/-- C9: the first sensor-acknowledgement High measurement is discarded without
any validation: the transaction's outcome is the same for every value of that
measured duration — timeout-sized values included — so that step by itself can
never make the transaction fail. -/
theorem c9_initial_ack_high_discarded (tr : PulseTrace) (d : Nat) :
    dht22_transaction ⟨d, tr.ackLow, tr.ackHigh, tr.lows, tr.highs⟩ =
      dht22_transaction tr :=
  rfl

/-! ### Claim C10 -/

/-- C10: `DHT22::new` succeeds for every pin index whenever the GPIO
controller initializes, storing the pin index unvalidated and unclaimed; a
`Gpio::new` failure is wrapped at construction, while a pin acquisition
failure surfaces only when a read transaction runs, as the wrapped acquisition
error. -/
theorem c10_new_unvalidated_pin (gpio_pin : Nat) (g : GpioHandle) (e : GpioError)
    (tr : PulseTrace) :
    DHT22.new (.ok g) gpio_pin = .ok ⟨g, gpio_pin⟩ ∧
    DHT22.new (.error e) gpio_pin = .error (.gpioError e) ∧
    dht22_read (.error e) tr = .error (.gpioError e) :=
  ⟨rfl, rfl, rfl⟩
